import Mathlib

/-!
Verification of the Banksformer bootstrap scripts.

This file gives a shallow embedding of the two source files of the
repository and proves the contract properties of their specification.

`src/train_seed.py` defines `set_seed(seed)`, which seeds Python's
`random` module, numpy's global RNG, and (when the `torch` package was
importable at module load) torch's CPU/GPU RNGs together with the cuDNN
determinism flags, swallowing any torch-side failure.

`src/train_colab.py` defines `main(config_path)`, which checks that the
config file exists (exit code 2 otherwise), parses it, best-effort seeds
from the optional `seed` key, creates the checkpoint and log directories
(keys `paths.checkpoints` / `paths.logs` with defaults), logs a resume
notice, resolves a `train` callable in two steps, and either dispatches
to it or exits with code 3.

Side effects are embedded as explicit state (an `RNGState` and a list of
created directories) together with a trace of observable events (log
lines, prints, directory creations, seeding calls, the training call).
External-library behaviour that the scripts rely on is modelled from the
libraries' documented contracts; in particular numpy's legacy global
seeding accepts exactly the integer seeds in `[0, 2^32)` and raises
`ValueError` otherwise, which matters for the never-raises claims.
-/

namespace Banksformer

/-- Abstract state of every RNG subsystem the scripts touch. Seeding an
RNG with integer `s` puts it into a state determined by `s` alone, so the
state of each generator is modelled as the last seed planted in it
(`none` = never seeded in this process). The two cuDNN flags mirror
`torch.backends.cudnn.deterministic` / `.benchmark`. -/
structure RNGState where
  randomSeed : Option Int
  npSeed : Option Int
  torchSeed : Option Int
  torchCudaSeed : Option Int
  cudnnDeterministic : Bool
  cudnnBenchmark : Bool
deriving DecidableEq

/-- Model of `random.seed(s)` (Python standard library): accepts any
integer and re-initialises the generator deterministically from it. -/
def randomSeedPy (s : Int) (st : RNGState) : RNGState :=
  { st with randomSeed := some s }

/-- Model of `np.random.seed(s)` (numpy legacy global seeding): for an
integer argument the documented contract accepts exactly
`0 <= s < 2^32` and raises `ValueError` otherwise. -/
def npRandomSeed (s : Int) (st : RNGState) : Except Unit RNGState :=
  if 0 ≤ s ∧ s < 2 ^ 32 then Except.ok { st with npSeed := some s }
  else Except.error ()

/-- The four torch calls of `set_seed`, executed inside its
`try/except: pass`. `failAt = some k` is an oracle saying the `(k+1)`-th
torch call raises (e.g. no GPU); calls before it have already taken
effect and, since the exception is swallowed, the partially updated
state is what remains. `failAt = none` (or an index past the last call)
means every call succeeds. -/
def torchSeedBlock (failAt : Option Nat) (s : Int) (st : RNGState) : RNGState :=
  match failAt with
  | some 0 => st
  | some 1 => { st with torchSeed := some s }
  | some 2 => { st with torchSeed := some s, torchCudaSeed := some s }
  | some 3 => { st with torchSeed := some s, torchCudaSeed := some s,
                        cudnnDeterministic := true }
  | _ => { st with torchSeed := some s, torchCudaSeed := some s,
                   cudnnDeterministic := true, cudnnBenchmark := false }

/-- Embedding of `train_seed.set_seed` (src/train_seed.py, lines 20-37).
`torchAvailable` is the module-load-time flag `torch is not None`
(the `try: import torch / except: torch = None` header), fixed once per
process, and `torchFailAt` the runtime-failure oracle for the torch
calls. Returns the resulting RNG state together with `true` when the
call raises an exception to its caller: `random.seed` runs first, then
`np.random.seed` (whose `ValueError` propagates out, the code has no
handler around it), then the guarded torch block whose failures are
swallowed. -/
def set_seed (torchAvailable : Bool) (torchFailAt : Option Nat) (s : Int)
    (st : RNGState) : RNGState × Bool :=
  let st1 := randomSeedPy s st
  match npRandomSeed s st1 with
  | Except.error _ => (st1, true)
  | Except.ok st2 =>
    if torchAvailable then (torchSeedBlock torchFailAt s st2, false)
    else (st2, false)

/-! Embedding of `train_colab.py`. -/

/-- The `paths` sub-mapping of the configuration; each key optional. -/
structure Paths where
  checkpoints : Option String
  logs : Option String
deriving DecidableEq

/-- Value found under the `seed` key: `intConv` is the result of the
`int(seed)` conversion attempted by `main`, `none` meaning the
conversion raises (e.g. a non-numeric string). -/
structure SeedVal where
  intConv : Option Int
deriving DecidableEq

/-- Configuration mapping parsed from the YAML file, restricted to the
keys `main` reads: `seed` (optional), `paths` (optional sub-mapping) and
`resume` (default false). -/
structure Config where
  seed : Option SeedVal
  paths : Option Paths
  resume : Bool
deriving DecidableEq

/-- Environment oracle for one run of `main`: what the filesystem,
parser and import machinery answer. `parse` is the result of
`yaml.safe_load` on the file (errors propagate, uncaught).
`trainSeedImportOk` records whether `from train_seed import set_seed`
succeeded at module load (otherwise the printing fallback is bound);
`fromTrainImportOk`, `importTrainModOk` and `trainAttrOnMod` drive the
two-step `train` entry-point resolution. -/
structure Env where
  fileExists : Bool
  parse : Except Unit Config
  trainSeedImportOk : Bool
  torchAvailable : Bool
  torchFailAt : Option Nat
  fromTrainImportOk : Bool
  importTrainModOk : Bool
  trainAttrOnMod : Bool

/-- Observable events of a run of `main`, in program order. -/
inductive Event where
  | logInfo (m : String)
  | logWarning (m : String)
  | logError (m : String)
  | printMsg (m : String)
  | mkdir (d : String)
  | callSetSeed (n : Int)
  | callFallbackSetSeed (n : Int)
  | callTrain
deriving DecidableEq

/-- How a run of `main` ends: `sys.exit(code)`, dispatch to the training
callable, or an exception nothing catches (e.g. a YAML parse error). -/
inductive Outcome where
  | exited (code : Nat)
  | trained
  | uncaught
deriving DecidableEq

/-- Mutable world `main` acts on: the process RNG state and the set of
directories existing on the filesystem. -/
structure World where
  rng : RNGState
  dirs : List String
deriving DecidableEq

/-- Model of `os.makedirs(d, exist_ok=True)`: creates the directory if
absent, succeeds silently if it already exists. -/
def makedirs (d : String) (ds : List String) : List String :=
  if d ∈ ds then ds else ds ++ [d]

/-- Checkpoint directory resolved from the config:
`config.get("paths", {}).get("checkpoints", "checkpoints")`. -/
def ckptName (cfg : Config) : String :=
  ((cfg.paths.getD { checkpoints := none, logs := none }).checkpoints).getD "checkpoints"

/-- Log directory resolved from the config:
`config.get("paths", {}).get("logs", "logs")`. -/
def logsName (cfg : Config) : String :=
  ((cfg.paths.getD { checkpoints := none, logs := none }).logs).getD "logs"

/-- Two-step `train` entry-point resolution of `main` (src/train_colab.py,
lines 69-77): first `from train import train`; on any exception,
`import train` and `getattr(_train_mod, "train", None)`; on any
exception there, `train = None`. The resolved callable itself is
abstracted to `Unit`. -/
def resolveTrain (e : Env) : Option Unit :=
  if e.fromTrainImportOk then some ()
  else if e.importTrainModOk then
    (if e.trainAttrOnMod then some () else none)
  else none

/-- The seeding step of `main` (src/train_colab.py, lines 46-52):
if the `seed` key is present, run `set_seed(int(seed))` inside a
`try/except Exception` that logs a warning; on success log
"Set deterministic seed". When `from train_seed import set_seed` failed
at module load, the bound `set_seed` is the fallback that only prints
and seeds nothing. Only the RNG state can change in this step; returns
the new RNG state and the emitted events. -/
def seedStep (e : Env) (cfg : Config) (rng : RNGState) : RNGState × List Event :=
  match cfg.seed with
  | none => (rng, [])
  | some sv =>
    match sv.intConv with
    | none => (rng, [Event.logWarning "Failed to set seed"])
    | some n =>
      if e.trainSeedImportOk then
        let pr := set_seed e.torchAvailable e.torchFailAt n rng
        if pr.2 then
          (pr.1, [Event.callSetSeed n, Event.logWarning "Failed to set seed"])
        else
          (pr.1, [Event.callSetSeed n, Event.logInfo "Set deterministic seed"])
      else
        (rng, [Event.callFallbackSetSeed n,
               Event.printMsg "train_seed.set_seed not available; skipping seed setup",
               Event.logInfo "Set deterministic seed"])

/-- Result of a run of `main`: outcome, final world, event trace. -/
structure MainResult where
  outcome : Outcome
  world : World
  trace : List Event
deriving DecidableEq

/-- Embedding of `train_colab.main` (src/train_colab.py, lines 36-88):
existence check and exit 2, YAML parse (errors uncaught), best-effort
seeding, directory creation with defaults, resume notice, two-step
entry-point resolution, then exit 3 or dispatch. -/
def main (configPath : String) (e : Env) (w : World) : MainResult :=
  if e.fileExists then
    match e.parse with
    | Except.error _ => { outcome := Outcome.uncaught, world := w, trace := [] }
    | Except.ok cfg =>
      let sres := seedStep e cfg w.rng
      let ck := ckptName cfg
      let lg := logsName cfg
      let w2 : World := { rng := sres.1, dirs := makedirs lg (makedirs ck w.dirs) }
      let evs := sres.2 ++ [Event.mkdir ck, Event.mkdir lg] ++
        (if cfg.resume then
          [Event.logInfo ("Resume enabled - training will attempt to restore from checkpoints in " ++ ck)]
         else [])
      match resolveTrain e with
      | none =>
          { outcome := Outcome.exited 3, world := w2,
            trace := evs ++ [Event.logError "Could not import a train(config) function"] }
      | some _ =>
          { outcome := Outcome.trained, world := w2,
            trace := evs ++ [Event.logInfo ("Starting training with config: " ++ configPath),
                             Event.callTrain] }
  else
    { outcome := Outcome.exited 2, world := w,
      trace := [Event.logError ("Config file not found: " ++ configPath)] }

/-! Concrete values used by witnesses and counterexamples. -/

/-- A fresh-process RNG state: nothing seeded, cuDNN at torch defaults. -/
def rng0 : RNGState :=
  { randomSeed := none, npSeed := none, torchSeed := none,
    torchCudaSeed := none, cudnnDeterministic := false, cudnnBenchmark := true }

/-- An empty filesystem world. -/
def w0 : World := { rng := rng0, dirs := [] }

/-- A configuration with explicit seed and paths. -/
def cfgFull : Config :=
  { seed := some { intConv := some 7 },
    paths := some { checkpoints := some "A", logs := some "B" },
    resume := false }

/-- A configuration with no seed key and no paths mapping. -/
def cfgBare : Config := { seed := none, paths := none, resume := true }

/-- A configuration whose seed value fails integer conversion. -/
def cfgBadSeed : Config := { seed := some { intConv := none }, paths := none, resume := false }

/-- A fully healthy environment parsing to `cfgFull`. -/
def env0 : Env :=
  { fileExists := true, parse := Except.ok cfgFull, trainSeedImportOk := true,
    torchAvailable := false, torchFailAt := none,
    fromTrainImportOk := true, importTrainModOk := true, trainAttrOnMod := true }

/-! Helper lemmas (shared, not tied to a single claim). -/

theorem torchSeedBlock_randomSeed (f : Option Nat) (s : Int) (st : RNGState) :
    (torchSeedBlock f s st).randomSeed = st.randomSeed := by
  cases f with
  | none => rfl
  | some k =>
    match k with
    | 0 => rfl
    | 1 => rfl
    | 2 => rfl
    | 3 => rfl
    | (n + 4) => rfl

theorem torchSeedBlock_npSeed (f : Option Nat) (s : Int) (st : RNGState) :
    (torchSeedBlock f s st).npSeed = st.npSeed := by
  cases f with
  | none => rfl
  | some k =>
    match k with
    | 0 => rfl
    | 1 => rfl
    | 2 => rfl
    | 3 => rfl
    | (n + 4) => rfl

theorem set_seed_of_in_range (ta : Bool) (tf : Option Nat) (s : Int) (st : RNGState)
    (h : 0 ≤ s ∧ s < 2 ^ 32) :
    set_seed ta tf s st =
      (if ta then
        torchSeedBlock tf s { st with randomSeed := some s, npSeed := some s }
       else { st with randomSeed := some s, npSeed := some s }, false) := by
  simp only [set_seed, npRandomSeed, randomSeedPy]
  rw [if_pos h]
  cases ta <;> simp

theorem set_seed_of_out_of_range (ta : Bool) (tf : Option Nat) (s : Int) (st : RNGState)
    (h : ¬ (0 ≤ s ∧ s < 2 ^ 32)) :
    set_seed ta tf s st = ({ st with randomSeed := some s }, true) := by
  simp only [set_seed, npRandomSeed, randomSeedPy]
  rw [if_neg h]

theorem mem_makedirs_self (d : String) (ds : List String) : d ∈ makedirs d ds := by
  unfold makedirs
  split
  · assumption
  · simp

theorem mem_makedirs_of_mem (a d : String) (ds : List String) (h : a ∈ ds) :
    a ∈ makedirs d ds := by
  unfold makedirs
  split
  · exact h
  · simp [h]

theorem seedStep_of_no_seed (e : Env) (cfg : Config) (rng : RNGState)
    (hs : cfg.seed = none) : seedStep e cfg rng = (rng, []) := by
  simp [seedStep, hs]

theorem seedStep_of_conv_fail (e : Env) (cfg : Config) (rng : RNGState) (sv : SeedVal)
    (hs : cfg.seed = some sv) (hc : sv.intConv = none) :
    seedStep e cfg rng = (rng, [Event.logWarning "Failed to set seed"]) := by
  simp [seedStep, hs, hc]

theorem seedStep_of_fallback (e : Env) (cfg : Config) (rng : RNGState) (sv : SeedVal)
    (n : Int) (hs : cfg.seed = some sv) (hc : sv.intConv = some n)
    (hi : e.trainSeedImportOk = false) :
    seedStep e cfg rng =
      (rng, [Event.callFallbackSetSeed n,
             Event.printMsg "train_seed.set_seed not available; skipping seed setup",
             Event.logInfo "Set deterministic seed"]) := by
  simp [seedStep, hs, hc, hi]

theorem seedStep_of_real (e : Env) (cfg : Config) (rng : RNGState) (sv : SeedVal)
    (n : Int) (hs : cfg.seed = some sv) (hc : sv.intConv = some n)
    (hi : e.trainSeedImportOk = true) :
    seedStep e cfg rng =
      ((set_seed e.torchAvailable e.torchFailAt n rng).1,
       if (set_seed e.torchAvailable e.torchFailAt n rng).2 then
         [Event.callSetSeed n, Event.logWarning "Failed to set seed"]
       else
         [Event.callSetSeed n, Event.logInfo "Set deterministic seed"]) := by
  simp only [seedStep, hs, hc, hi, if_true]
  split <;> simp_all

theorem resolveTrain_eq_none (e : Env) (h1 : e.fromTrainImportOk = false)
    (h2 : e.importTrainModOk = false ∨ e.trainAttrOnMod = false) :
    resolveTrain e = none := by
  rcases h2 with h2 | h2 <;> simp [resolveTrain, h1, h2]

theorem set_seed_randomSeed_eq (ta : Bool) (tf : Option Nat) (s : Int) (st : RNGState) :
    (set_seed ta tf s st).1.randomSeed = some s := by
  by_cases h : 0 ≤ s ∧ s < 2 ^ 32
  · rw [set_seed_of_in_range ta tf s st h]
    cases ta <;> simp [torchSeedBlock_randomSeed]
  · rw [set_seed_of_out_of_range ta tf s st h]

theorem set_seed_npSeed_eq (ta : Bool) (tf : Option Nat) (s : Int) (st : RNGState) :
    (set_seed ta tf s st).1.npSeed =
      if 0 ≤ s ∧ s < 2 ^ 32 then some s else st.npSeed := by
  by_cases h : 0 ≤ s ∧ s < 2 ^ 32
  · rw [set_seed_of_in_range ta tf s st h, if_pos h]
    cases ta <;> simp [torchSeedBlock_npSeed]
  · rw [set_seed_of_out_of_range ta tf s st h, if_neg h]

theorem main_of_ok (cp : String) (e : Env) (w : World) (cfg : Config)
    (he : e.fileExists = true) (hp : e.parse = Except.ok cfg) :
    main cp e w =
      { outcome := if resolveTrain e = none then Outcome.exited 3 else Outcome.trained,
        world := { rng := (seedStep e cfg w.rng).1,
                   dirs := makedirs (logsName cfg) (makedirs (ckptName cfg) w.dirs) },
        trace := (seedStep e cfg w.rng).2 ++
          [Event.mkdir (ckptName cfg), Event.mkdir (logsName cfg)] ++
          (if cfg.resume then
            [Event.logInfo ("Resume enabled - training will attempt to restore from checkpoints in " ++ ckptName cfg)]
           else []) ++
          (if resolveTrain e = none then
            [Event.logError "Could not import a train(config) function"]
           else
            [Event.logInfo ("Starting training with config: " ++ cp), Event.callTrain]) } := by
  simp only [main, he, if_true, hp]
  cases hr : resolveTrain e <;> simp [hr, List.append_assoc]

/-! Claims about `train_seed.set_seed`. -/

/-- Claim C1, counterexample: the claim says `set_seed` never raises for
every integer seed and always completes both non-framework seeding
steps. At seed `-1` the call to `np.random.seed` raises (numpy rejects
integer seeds outside `[0, 2^32)`), so `set_seed(-1)` raises and leaves
the numerical-array RNG unseeded. -/
theorem set_seed_raises_on_negative_seed :
    (set_seed true none (-1) rng0).2 = true ∧
    (set_seed true none (-1) rng0).1.npSeed = none := by
  constructor <;> rfl

/-- Claim C1 (amended): for every integer seed in `[0, 2^32)`,
`set_seed` never raises, and a failure in the framework seeding
subsystem never prevents the non-framework seeding steps from
completing: after any such call, both `random.seed` and
`np.random.seed` have been performed with that seed, for any torch
availability and any torch-side failure. -/
theorem set_seed_in_range_total (ta : Bool) (tf : Option Nat) (s : Int) (st : RNGState)
    (h0 : 0 ≤ s) (h1 : s < 2 ^ 32) :
    (set_seed ta tf s st).2 = false ∧
    (set_seed ta tf s st).1.randomSeed = some s ∧
    (set_seed ta tf s st).1.npSeed = some s := by
  refine ⟨?_, set_seed_randomSeed_eq ta tf s st, ?_⟩
  · rw [set_seed_of_in_range ta tf s st ⟨h0, h1⟩]
  · rw [set_seed_npSeed_eq ta tf s st, if_pos ⟨h0, h1⟩]

/-- Witness for `set_seed_in_range_total` at seed 42, torch present and
its second call (the GPU one) failing. -/
theorem set_seed_in_range_total_witness :
    (set_seed true (some 1) 42 rng0).2 = false ∧
    (set_seed true (some 1) 42 rng0).1.randomSeed = some 42 ∧
    (set_seed true (some 1) 42 rng0).1.npSeed = some 42 :=
  set_seed_in_range_total true (some 1) 42 rng0 (by decide) (by decide)

/-- Claim C4: for every integer seed `s`, calling `set_seed` twice with
the same `s` leaves the general-purpose RNG and the numerical-array RNG
in the same states as calling it once, so the pseudo-random sequences
drawn after each call are identical (the state of each generator
determines its sequence). This holds for any torch availability and
failure oracle, and also for out-of-range seeds, where both calls raise
at the same point and leave both RNGs identically. -/
theorem set_seed_reseed_idempotent (ta : Bool) (tf : Option Nat) (s : Int) (st : RNGState) :
    (set_seed ta tf s (set_seed ta tf s st).1).1.randomSeed =
      (set_seed ta tf s st).1.randomSeed ∧
    (set_seed ta tf s (set_seed ta tf s st).1).1.npSeed =
      (set_seed ta tf s st).1.npSeed := by
  refine ⟨?_, ?_⟩
  · rw [set_seed_randomSeed_eq, set_seed_randomSeed_eq]
  · rw [set_seed_npSeed_eq, set_seed_npSeed_eq]
    by_cases h : 0 ≤ s ∧ s < 2 ^ 32
    · rw [if_pos h, if_pos h]
    · rw [if_neg h, if_neg h]

/-- Claim C9, counterexample: the claim says that with the framework
absent every seed is handled without raising. At seed `2^32` the call to
`np.random.seed` raises even with torch absent, so `set_seed` raises. -/
theorem set_seed_no_torch_raises_out_of_range :
    (set_seed false none (2 ^ 32) rng0).2 = true := by decide

/-- Claim C9 (amended): absence of the tensor-computation framework is
detected once at module load time (the `torchAvailable` flag is fixed
when `train_seed` is imported, not re-tested per call); for every seed
in `[0, 2^32)`, calling `set_seed` with the framework absent does not
raise and still seeds the general-purpose and numerical-array RNGs,
leaving every torch-side field untouched. -/
theorem set_seed_no_torch_in_range (tf : Option Nat) (s : Int) (st : RNGState)
    (h0 : 0 ≤ s) (h1 : s < 2 ^ 32) :
    set_seed false tf s st =
      ({ st with randomSeed := some s, npSeed := some s }, false) := by
  rw [set_seed_of_in_range false tf s st ⟨h0, h1⟩]
  simp

/-- Witness for `set_seed_no_torch_in_range` at seed 5. -/
theorem set_seed_no_torch_in_range_witness :
    set_seed false none 5 rng0 =
      ({ rng0 with randomSeed := some 5, npSeed := some 5 }, false) :=
  set_seed_no_torch_in_range none 5 rng0 (by decide) (by decide)

/-! Claims about `train_colab.main`. -/

/-- Claim C2: if the config path does not name an existing file, `main`
logs an error and terminates with exit code 2, leaving the world (RNG
state and filesystem) untouched and creating no directory before that
termination. -/
theorem main_missing_config_exits_2 (cp : String) (e : Env) (w : World)
    (he : e.fileExists = false) :
    (main cp e w).outcome = Outcome.exited 2 ∧
    (main cp e w).world = w ∧
    (∀ d, Event.mkdir d ∉ (main cp e w).trace) ∧
    Event.logError ("Config file not found: " ++ cp) ∈ (main cp e w).trace := by
  simp [main, he]

/-- An environment whose configuration file is missing. -/
def envNoFile : Env := { env0 with fileExists := false }

/-- Witness for `main_missing_config_exits_2`. -/
theorem main_missing_config_exits_2_witness :
    (main "configs/banksformer_free.yaml" envNoFile w0).outcome = Outcome.exited 2 :=
  (main_missing_config_exits_2 "configs/banksformer_free.yaml" envNoFile w0 rfl).1

/-- Claim C3: with a valid configuration but no resolvable train
callable (neither a directly importable `train` function nor a `train`
attribute on an importable `train` module), `main` logs an error and
terminates with exit code 3, and at that point the checkpoint and log
directories have already been created: both are on the filesystem at
termination and both `mkdir` events precede the error in the trace. -/
theorem main_unresolvable_train_exits_3 (cp : String) (e : Env) (w : World) (cfg : Config)
    (he : e.fileExists = true) (hp : e.parse = Except.ok cfg)
    (h1 : e.fromTrainImportOk = false)
    (h2 : e.importTrainModOk = false ∨ e.trainAttrOnMod = false) :
    (main cp e w).outcome = Outcome.exited 3 ∧
    ckptName cfg ∈ (main cp e w).world.dirs ∧
    logsName cfg ∈ (main cp e w).world.dirs ∧
    (∃ pre, (main cp e w).trace =
        pre ++ [Event.logError "Could not import a train(config) function"] ∧
      Event.mkdir (ckptName cfg) ∈ pre ∧ Event.mkdir (logsName cfg) ∈ pre) := by
  have hr := resolveTrain_eq_none e h1 h2
  rw [main_of_ok cp e w cfg he hp]
  refine ⟨by simp [hr], ?_, ?_, ?_⟩
  · exact mem_makedirs_of_mem _ _ _ (mem_makedirs_self _ _)
  · exact mem_makedirs_self _ _
  · refine ⟨(seedStep e cfg w.rng).2 ++
      [Event.mkdir (ckptName cfg), Event.mkdir (logsName cfg)] ++
      (if cfg.resume then
        [Event.logInfo ("Resume enabled - training will attempt to restore from checkpoints in " ++ ckptName cfg)]
       else []), ?_, by simp, by simp⟩
    simp [hr, List.append_assoc]

/-- An environment in which the `train` module imports but exposes no
`train` attribute, so both resolution steps come up empty. -/
def envNoTrain : Env :=
  { env0 with fromTrainImportOk := false, importTrainModOk := true, trainAttrOnMod := false }

/-- Witness for `main_unresolvable_train_exits_3`. -/
theorem main_unresolvable_train_exits_3_witness :
    (main "c.yaml" envNoTrain w0).outcome = Outcome.exited 3 :=
  (main_unresolvable_train_exits_3 "c.yaml" envNoTrain w0 cfgFull rfl rfl rfl (Or.inr rfl)).1

/-- Claim C5: when the configuration has a `seed` key, `main` attempts
integer conversion and calls the bound `set_seed` on the result; a
conversion failure, or `set_seed` itself raising, is caught and logged
as a warning, and execution always continues to directory creation and
dispatch (the run reaches exit 3 or the training call, never an
uncaught exception from the seeding step). -/
theorem main_seed_best_effort (cp : String) (e : Env) (w : World) (cfg : Config) (sv : SeedVal)
    (he : e.fileExists = true) (hp : e.parse = Except.ok cfg) (hs : cfg.seed = some sv) :
    (ckptName cfg ∈ (main cp e w).world.dirs ∧ logsName cfg ∈ (main cp e w).world.dirs) ∧
    ((main cp e w).outcome = Outcome.exited 3 ∨ (main cp e w).outcome = Outcome.trained) ∧
    (sv.intConv = none →
      Event.logWarning "Failed to set seed" ∈ (main cp e w).trace) ∧
    (∀ n, sv.intConv = some n → e.trainSeedImportOk = true →
      Event.callSetSeed n ∈ (main cp e w).trace ∧
      ((set_seed e.torchAvailable e.torchFailAt n w.rng).2 = true →
        Event.logWarning "Failed to set seed" ∈ (main cp e w).trace)) := by
  rw [main_of_ok cp e w cfg he hp]
  refine ⟨⟨mem_makedirs_of_mem _ _ _ (mem_makedirs_self _ _), mem_makedirs_self _ _⟩,
    ?_, ?_, ?_⟩
  · by_cases hr : resolveTrain e = none <;> simp [hr]
  · intro hc
    rw [seedStep_of_conv_fail e cfg w.rng sv hs hc]
    simp
  · intro n hc hi
    rw [seedStep_of_real e cfg w.rng sv n hs hc hi]
    constructor
    · by_cases hx : (set_seed e.torchAvailable e.torchFailAt n w.rng).2 = true <;>
        simp [hx]
    · intro hx
      simp [hx]

/-- An environment whose configuration has a seed value that fails
integer conversion. -/
def envBadSeed : Env := { env0 with parse := Except.ok cfgBadSeed }

/-- Witness for `main_seed_best_effort`: the conversion failure is
logged as a warning. -/
theorem main_seed_best_effort_witness :
    Event.logWarning "Failed to set seed" ∈ (main "c.yaml" envBadSeed w0).trace :=
  (main_seed_best_effort "c.yaml" envBadSeed w0 cfgBadSeed { intConv := none }
    rfl rfl rfl).2.2.1 rfl

/-- Claim C6: when the `seed` key is absent, `main` performs no seeding
call at all (neither the real `set_seed` nor the fallback), leaves the
RNG state unchanged, raises no error, and still proceeds to directory
creation and entry-point dispatch. -/
theorem main_seed_absent_skips_seeding (cp : String) (e : Env) (w : World) (cfg : Config)
    (he : e.fileExists = true) (hp : e.parse = Except.ok cfg) (hs : cfg.seed = none) :
    (∀ n : Int, Event.callSetSeed n ∉ (main cp e w).trace ∧
      Event.callFallbackSetSeed n ∉ (main cp e w).trace) ∧
    (main cp e w).world.rng = w.rng ∧
    Event.mkdir (ckptName cfg) ∈ (main cp e w).trace ∧
    Event.mkdir (logsName cfg) ∈ (main cp e w).trace ∧
    ((main cp e w).outcome = Outcome.exited 3 ∨ (main cp e w).outcome = Outcome.trained) := by
  rw [main_of_ok cp e w cfg he hp]
  rw [seedStep_of_no_seed e cfg w.rng hs]
  refine ⟨?_, rfl, by simp, by simp, ?_⟩
  · intro n
    by_cases hr : resolveTrain e = none <;> by_cases hres : cfg.resume = true <;>
      simp [hr, hres]
  · by_cases hr : resolveTrain e = none <;> simp [hr]

/-- An environment parsing to the bare configuration (no seed key). -/
def envBare : Env := { env0 with parse := Except.ok cfgBare }

/-- Witness for `main_seed_absent_skips_seeding`: the RNG state is
untouched. -/
theorem main_seed_absent_skips_seeding_witness :
    (main "c.yaml" envBare w0).world.rng = w0.rng :=
  (main_seed_absent_skips_seeding "c.yaml" envBare w0 cfgBare rfl rfl rfl).2.1

/-- Claim C7: `main` resolves the checkpoint directory from
`paths.checkpoints` with default "checkpoints" and the log directory
from `paths.logs` with default "logs" (the defaults applying when the
key or the whole `paths` mapping is absent), creates both, and treats
pre-existing directories as no error: for any initial filesystem
(including one already holding them) both directories exist afterwards,
nothing is lost, and the run continues to dispatch. -/
theorem main_creates_directories_with_defaults (cp : String) (e : Env) (w : World)
    (cfg : Config) (he : e.fileExists = true) (hp : e.parse = Except.ok cfg) :
    ((main cp e w).outcome = Outcome.exited 3 ∨ (main cp e w).outcome = Outcome.trained) ∧
    Event.mkdir (ckptName cfg) ∈ (main cp e w).trace ∧
    Event.mkdir (logsName cfg) ∈ (main cp e w).trace ∧
    ckptName cfg ∈ (main cp e w).world.dirs ∧
    logsName cfg ∈ (main cp e w).world.dirs ∧
    (∀ d, d ∈ w.dirs → d ∈ (main cp e w).world.dirs) ∧
    (cfg.paths = none → ckptName cfg = "checkpoints" ∧ logsName cfg = "logs") ∧
    (∀ p, cfg.paths = some p →
      ckptName cfg = p.checkpoints.getD "checkpoints" ∧
      logsName cfg = p.logs.getD "logs") := by
  rw [main_of_ok cp e w cfg he hp]
  refine ⟨?_, by simp, by simp,
    mem_makedirs_of_mem _ _ _ (mem_makedirs_self _ _), mem_makedirs_self _ _,
    ?_, ?_, ?_⟩
  · by_cases hr : resolveTrain e = none <;> simp [hr]
  · intro d hd
    exact mem_makedirs_of_mem _ _ _ (mem_makedirs_of_mem _ _ _ hd)
  · intro hpn
    simp [ckptName, logsName, hpn]
  · intro p hps
    simp [ckptName, logsName, hps]

/-- Witness for `main_creates_directories_with_defaults`: with
`paths.checkpoints = "A"` the directory "A" exists afterwards. -/
theorem main_creates_directories_with_defaults_witness :
    ckptName cfgFull ∈ (main "c.yaml" env0 w0).world.dirs :=
  (main_creates_directories_with_defaults "c.yaml" env0 w0 cfgFull rfl rfl).2.2.2.1

/-- Claim C8: entry-point resolution follows exactly two steps in
order: first `from train import train`; if that fails, `import train`
and its `train` attribute with `None` default. An import failure at
either step yields the "not found" outcome (`none`) rather than a
raised error: resolution is a total function, and it returns `none`
exactly when the direct import fails and the module route fails or
lacks the attribute. -/
theorem resolveTrain_two_step_resolution (e : Env) :
    (e.fromTrainImportOk = true → resolveTrain e = some ()) ∧
    (e.fromTrainImportOk = false → e.importTrainModOk = true →
      resolveTrain e = (if e.trainAttrOnMod then some () else none)) ∧
    (resolveTrain e = none ↔
      e.fromTrainImportOk = false ∧
        (e.importTrainModOk = false ∨ e.trainAttrOnMod = false)) := by
  cases h1 : e.fromTrainImportOk <;> cases h2 : e.importTrainModOk <;>
    cases h3 : e.trainAttrOnMod <;> simp [resolveTrain, h1, h2, h3]

/-- Witness for `resolveTrain_two_step_resolution`: both import routes
failing resolves to `none`. -/
theorem resolveTrain_two_step_resolution_witness :
    resolveTrain { env0 with fromTrainImportOk := false, importTrainModOk := false } = none :=
  (resolveTrain_two_step_resolution
    { env0 with fromTrainImportOk := false, importTrainModOk := false }).2.2.mpr
    ⟨rfl, Or.inl rfl⟩

/-- Claim C10: if the `train_seed` module cannot be imported, `main`
silently substitutes the fallback `set_seed` that only prints a message
and seeds nothing; a configuration with a convertible `seed` key then
still makes `main` log "Set deterministic seed" although no RNG
subsystem changed state and the real `set_seed` was never called. -/
theorem main_fallback_seed_misleading_log (cp : String) (e : Env) (w : World)
    (cfg : Config) (sv : SeedVal) (n : Int)
    (he : e.fileExists = true) (hp : e.parse = Except.ok cfg)
    (hs : cfg.seed = some sv) (hc : sv.intConv = some n)
    (hi : e.trainSeedImportOk = false) :
    Event.callFallbackSetSeed n ∈ (main cp e w).trace ∧
    Event.printMsg "train_seed.set_seed not available; skipping seed setup" ∈
      (main cp e w).trace ∧
    Event.logInfo "Set deterministic seed" ∈ (main cp e w).trace ∧
    (main cp e w).world.rng = w.rng ∧
    (∀ m : Int, Event.callSetSeed m ∉ (main cp e w).trace) := by
  rw [main_of_ok cp e w cfg he hp]
  rw [seedStep_of_fallback e cfg w.rng sv n hs hc hi]
  refine ⟨by simp, by simp, by simp, rfl, ?_⟩
  intro m
  by_cases hr : resolveTrain e = none <;> by_cases hres : cfg.resume = true <;>
    simp [hr, hres]

/-- An environment in which `from train_seed import set_seed` failed at
module load, binding the printing fallback. -/
def envNoSeedHelper : Env := { env0 with trainSeedImportOk := false }

/-- Witness for `main_fallback_seed_misleading_log`: the success log
line appears even though nothing was seeded. -/
theorem main_fallback_seed_misleading_log_witness :
    Event.logInfo "Set deterministic seed" ∈ (main "c.yaml" envNoSeedHelper w0).trace :=
  (main_fallback_seed_misleading_log "c.yaml" envNoSeedHelper w0 cfgFull
    { intConv := some 7 } 7 rfl rfl rfl rfl rfl).2.2.1

end Banksformer
